import Mathlib

/-!
Verification of the PPSSPP software-rasterizer interface
(`GPU/Software/Rasterizer.h`) and of the Android content-URI storage layer
(`Common/File/AndroidStorage.cpp` / `.h`).

The rasterizer implementation itself is not part of this source slice (only
the declarations in `Rasterizer.h` are visible), so the rasterization,
blending, texture-combine, clear and debug-readback behaviour is modelled
from the specification document.  The Android storage functions are embedded
directly from `AndroidStorage.cpp`.
-/

namespace Rasterizer

/-- Modelled from the spec: `DrawingCoords`-style integer raster coordinates
are plain integer pairs; a pixel colour value is a `Nat`.  A destination
buffer is an assignment of a colour to every raster coordinate (the abstract
pixel-buffer interface the rasterizer writes through). -/
abbrev Buffer := Int × Int → Nat

/-- Modelled from the spec: the slice of `VertexData` (declared in the
missing `TransformUnit.h`) that matters here — the integer screen-space
position and the vertex colour used by the clear path. -/
structure VertexData where
  x : Int
  y : Int
  color : Nat
deriving DecidableEq

/-- Screen-space position of a vertex as a coordinate pair. -/
def VertexData.screenPos (v : VertexData) : Int × Int := (v.x, v.y)

/-- Edge function of the directed edge `a → b` evaluated at `p`; equals the
doubled signed area of the triangle `(a, b, p)`.  The scan converter's fill
rule and winding test are built on it (spec: "barycentric weights computed
from the edge functions"). -/
def edgeFn (a b p : Int × Int) : Int :=
  (b.1 - a.1) * (p.2 - a.2) - (b.2 - a.2) * (p.1 - a.1)

theorem edgeFn_swap (a b p : Int × Int) : edgeFn b a p = - edgeFn a b p := by
  unfold edgeFn; ring

theorem edgeFn_rev (a b c : Int × Int) : edgeFn c b a = - edgeFn a b c := by
  unfold edgeFn; ring

/-- Modelled from the spec: the deterministic tie-break of the fill rule
("top-left rule or equivalent") for an edge with direction `(dx, dy)`:
a pixel exactly on the edge belongs to the triangle when the edge points
upward, or horizontally to the left. -/
def isTopLeft (dx dy : Int) : Bool :=
  decide (dy < 0 ∨ (dy = 0 ∧ dx < 0))

theorem isTopLeft_neg (dx dy : Int) (h : ¬(dx = 0 ∧ dy = 0)) :
    isTopLeft (-dx) (-dy) = !isTopLeft dx dy := by
  unfold isTopLeft
  by_cases h1 : dy < 0 ∨ (dy = 0 ∧ dx < 0)
  · rw [decide_eq_true h1,
      decide_eq_false (show ¬(-dy < 0 ∨ (-dy = 0 ∧ -dx < 0)) by omega)]
    rfl
  · rw [decide_eq_false h1,
      decide_eq_true (show -dy < 0 ∨ (-dy = 0 ∧ -dx < 0) by omega)]
    rfl

/-- Modelled from the spec: a pixel passes the test of one directed edge when
it is strictly inside the edge's positive half-plane, or exactly on the edge
and the edge is a top-left edge. -/
def edgeCovers (a b p : Int × Int) : Bool :=
  decide (0 < edgeFn a b p) ||
    (decide (edgeFn a b p = 0) && isTopLeft (b.1 - a.1) (b.2 - a.2))

/-- Modelled from the spec: a pixel is covered by a triangle when it passes
the edge test of all three directed edges (spec: "a pixel is covered if its
center lies inside or on a deterministically chosen subset of the triangle's
edges"). -/
def triangleCovers (v0 v1 v2 p : Int × Int) : Bool :=
  edgeCovers v0 v1 p && edgeCovers v1 v2 p && edgeCovers v2 v0 p

/-- Modelled from the spec and the header comment "Draws a triangle if its
vertices are specified in counter-clockwise order": the winding test of
`DrawTriangle` accepts exactly the triangles with positive doubled signed
area. -/
def treatedFrontFacing (v0 v1 v2 : VertexData) : Bool :=
  decide (0 < edgeFn v0.screenPos v1.screenPos v2.screenPos)

/-- Modelled from the spec: `DrawTriangle` writes, for every covered pixel,
the value produced by the specialized pixel function `pf`, and only draws
counter-clockwise triangles. -/
def DrawTriangle (v0 v1 v2 : VertexData) (pf : Int × Int → Nat) (buf : Buffer) :
    Buffer :=
  if treatedFrontFacing v0 v1 v2 then
    fun p => if triangleCovers v0.screenPos v1.screenPos v2.screenPos p then pf p else buf p
  else
    buf

end Rasterizer

namespace Rasterizer

theorem edgeCovers_on_edge (a b p : Int × Int) (hp : edgeFn a b p = 0) :
    edgeCovers a b p = isTopLeft (b.1 - a.1) (b.2 - a.2) := by
  simp [edgeCovers, hp]

/-- C1: for two counter-clockwise triangles `(A,B,C)` and `(B,A,D)` sharing
the edge `A–B` exactly, no pixel on the shared edge is covered by both
triangles, and every pixel on the shared edge that passes the remaining edge
tests of both triangles is covered by at least one of them — so along the
shared edge the union of the two coverage sets has no double-covered pixel
and no gap. -/
theorem drawTriangle_shared_edge_exact (A B C D p : Int × Int)
    (hT1 : 0 < edgeFn A B C) (hT2 : 0 < edgeFn B A D)
    (hp : edgeFn A B p = 0) :
    ¬(triangleCovers A B C p = true ∧ triangleCovers B A D p = true) ∧
    ((edgeCovers B C p = true ∧ edgeCovers C A p = true ∧
      edgeCovers A D p = true ∧ edgeCovers D B p = true) →
      (triangleCovers A B C p = true ∨ triangleCovers B A D p = true)) := by
  have hBA : edgeFn B A p = 0 := by rw [edgeFn_swap]; omega
  have hne : ¬(B.1 - A.1 = 0 ∧ B.2 - A.2 = 0) := by
    rintro ⟨h1, h2⟩
    unfold edgeFn at hT1
    rw [h1, h2] at hT1
    simp at hT1
  have h1 : edgeCovers A B p = isTopLeft (B.1 - A.1) (B.2 - A.2) :=
    edgeCovers_on_edge A B p hp
  have h2 : edgeCovers B A p = !isTopLeft (B.1 - A.1) (B.2 - A.2) := by
    rw [edgeCovers_on_edge B A p hBA]
    have e1 : A.1 - B.1 = -(B.1 - A.1) := by ring
    have e2 : A.2 - B.2 = -(B.2 - A.2) := by ring
    rw [e1, e2]
    exact isTopLeft_neg _ _ hne
  constructor
  · rintro ⟨hc1, hc2⟩
    simp only [triangleCovers, Bool.and_eq_true] at hc1 hc2
    have k1 := hc1.1.1
    have k2 := hc2.1.1
    rw [h1] at k1
    rw [h2] at k2
    rw [k1] at k2
    simp at k2
  · rintro ⟨hbc, hca, had, hdb⟩
    simp only [triangleCovers, Bool.and_eq_true, h1, h2, hbc, hca, had, hdb,
      and_true]
    cases hcase : isTopLeft (B.1 - A.1) (B.2 - A.2)
    · right; simp
    · left; simp

/-- Witness for C1 at the concrete triangles `((0,0),(4,0),(0,4))` and
`((4,0),(0,0),(0,-4))` with the shared-edge pixel `(1,0)`. -/
theorem drawTriangle_shared_edge_exact_witness :
    ¬(triangleCovers (0, 0) (4, 0) (0, 4) (1, 0) = true ∧
      triangleCovers (4, 0) (0, 0) (0, -4) (1, 0) = true) ∧
    ((edgeCovers (4, 0) (0, 4) (1, 0) = true ∧
      edgeCovers (0, 4) (0, 0) (1, 0) = true ∧
      edgeCovers (0, 0) (0, -4) (1, 0) = true ∧
      edgeCovers (0, -4) (4, 0) (1, 0) = true) →
      (triangleCovers (0, 0) (4, 0) (0, 4) (1, 0) = true ∨
       triangleCovers (4, 0) (0, 0) (0, -4) (1, 0) = true)) :=
  drawTriangle_shared_edge_exact (0, 0) (4, 0) (0, 4) (0, -4) (1, 0)
    (by decide) (by decide) (by decide)

/-- Integer colour vector with four components, the shape of `Vec4<int>`
colour values flowing through the pixel pipeline. -/
structure Vec4i where
  r : Int
  g : Int
  b : Int
  a : Int
deriving DecidableEq

/-- Integer colour vector with three components, the shape of the
`Vec3<int>` result of `AlphaBlendingResult`. -/
structure Vec3i where
  r : Int
  g : Int
  b : Int
deriving DecidableEq

/-- Every component of a four-component colour lies in the representable
range 0..255. -/
def InRange4 (v : Vec4i) : Prop :=
  0 ≤ v.r ∧ v.r ≤ 255 ∧ 0 ≤ v.g ∧ v.g ≤ 255 ∧
  0 ≤ v.b ∧ v.b ≤ 255 ∧ 0 ≤ v.a ∧ v.a ≤ 255

instance (v : Vec4i) : Decidable (InRange4 v) := by
  unfold InRange4; infer_instance

/-- Every component of a three-component colour lies in the representable
range 0..255. -/
def InRange3 (v : Vec3i) : Prop :=
  0 ≤ v.r ∧ v.r ≤ 255 ∧ 0 ≤ v.g ∧ v.g ≤ 255 ∧ 0 ≤ v.b ∧ v.b ≤ 255

instance (v : Vec3i) : Decidable (InRange3 v) := by
  unfold InRange3; infer_instance

/-- Clamp one channel to the representable range 0..255 (spec: "All channel
results are clamped to representable range"). -/
def clampColor (x : Int) : Int := max 0 (min 255 x)

theorem clampColor_range (x : Int) : 0 ≤ clampColor x ∧ clampColor x ≤ 255 := by
  unfold clampColor; omega

theorem clampColor_of_range (x : Int) (h0 : 0 ≤ x) (h1 : x ≤ 255) :
    clampColor x = x := by
  unfold clampColor; omega

/-- Modelled from the spec: the blend operations OP of the blending unit
("add/subtract/reverse-subtract/min/max"). -/
inductive BlendEq where
  | addOp
  | subtractOp
  | reverseSubtractOp
  | minOp
  | maxOp
deriving DecidableEq

/-- Modelled from the spec: the standard blend-factor set ("zero, one,
source alpha, dest alpha, source color, dest color, and their complements,
plus a fixed blend constant"). -/
inductive BlendFactor where
  | zero
  | one
  | srcColor
  | oneMinusSrcColor
  | srcAlpha
  | oneMinusSrcAlpha
  | dstColor
  | oneMinusDstColor
  | dstAlpha
  | oneMinusDstAlpha
  | fixed
deriving DecidableEq

/-- Modelled from the spec: the slice of `PixelFuncID` (declared in the
missing `FuncId.h`) consulted by the blending unit — the blend equation, the
two factors and the fixed blend constants. -/
structure PixelFuncID where
  alphaBlendEq : BlendEq
  alphaBlendSrc : BlendFactor
  alphaBlendDst : BlendFactor
  fixA : Vec3i
  fixB : Vec3i
deriving DecidableEq

/-- Modelled from the spec: per-channel value of one blend factor, scaled so
that 255 denotes one. -/
def AlphaBlendingFactor (factor : BlendFactor) (source dst : Vec4i)
    (fix : Vec3i) : Vec3i :=
  match factor with
  | .zero => ⟨0, 0, 0⟩
  | .one => ⟨255, 255, 255⟩
  | .srcColor => ⟨source.r, source.g, source.b⟩
  | .oneMinusSrcColor => ⟨255 - source.r, 255 - source.g, 255 - source.b⟩
  | .srcAlpha => ⟨source.a, source.a, source.a⟩
  | .oneMinusSrcAlpha => ⟨255 - source.a, 255 - source.a, 255 - source.a⟩
  | .dstColor => ⟨dst.r, dst.g, dst.b⟩
  | .oneMinusDstColor => ⟨255 - dst.r, 255 - dst.g, 255 - dst.b⟩
  | .dstAlpha => ⟨dst.a, dst.a, dst.a⟩
  | .oneMinusDstAlpha => ⟨255 - dst.a, 255 - dst.a, 255 - dst.a⟩
  | .fixed => fix

/-- Modelled from the spec: the blending unit,
`finalColor = sourceColor × srcFactor OP destColor × dstFactor`, computed in
fixed point with truncating division by 255 as the documented rounding rule,
and every channel clamped to the representable range.  The min and max
operations combine the raw colours componentwise, clamped as well. -/
def AlphaBlendingResult (pixelID : PixelFuncID) (source dst : Vec4i) :
    Vec3i :=
  let sf := AlphaBlendingFactor pixelID.alphaBlendSrc source dst pixelID.fixA
  let df := AlphaBlendingFactor pixelID.alphaBlendDst source dst pixelID.fixB
  match pixelID.alphaBlendEq with
  | .addOp =>
      ⟨clampColor ((source.r * sf.r + dst.r * df.r) / 255),
       clampColor ((source.g * sf.g + dst.g * df.g) / 255),
       clampColor ((source.b * sf.b + dst.b * df.b) / 255)⟩
  | .subtractOp =>
      ⟨clampColor ((source.r * sf.r - dst.r * df.r) / 255),
       clampColor ((source.g * sf.g - dst.g * df.g) / 255),
       clampColor ((source.b * sf.b - dst.b * df.b) / 255)⟩
  | .reverseSubtractOp =>
      ⟨clampColor ((dst.r * df.r - source.r * sf.r) / 255),
       clampColor ((dst.g * df.g - source.g * sf.g) / 255),
       clampColor ((dst.b * df.b - source.b * sf.b) / 255)⟩
  | .minOp =>
      ⟨clampColor (min source.r dst.r), clampColor (min source.g dst.g),
       clampColor (min source.b dst.b)⟩
  | .maxOp =>
      ⟨clampColor (max source.r dst.r), clampColor (max source.g dst.g),
       clampColor (max source.b dst.b)⟩

/-- The identifier of the standard alpha-blend configuration:
srcFactor = source alpha, dstFactor = one minus source alpha, OP = add. -/
def standardAlphaPixelID : PixelFuncID :=
  ⟨.addOp, .srcAlpha, .oneMinusSrcAlpha, ⟨0, 0, 0⟩, ⟨0, 0, 0⟩⟩

/-- Modelled from the spec: the texture-environment combine modes of the
texture combine evaluator. -/
inductive TexFunc where
  | replace
  | modulate
  | decal
  | blend
  | addMode
deriving DecidableEq

/-- Modelled from the spec: the texture combine evaluator
`combine(combineMode, primaryColor, texelColor)` — replace (texel only),
modulate (componentwise multiply, normalized), decal (alpha-weighted blend
of primary and texel using texel alpha), blend (per-component blend using
the configured blend colour), add (componentwise sum, clamped); results are
clamped to the valid colour range. -/
def GetTextureFunctionOutput (texFunc : TexFunc) (texBlendColor : Vec3i)
    (prim texel : Vec4i) : Vec4i :=
  match texFunc with
  | .replace =>
      ⟨clampColor texel.r, clampColor texel.g, clampColor texel.b,
       clampColor texel.a⟩
  | .modulate =>
      ⟨clampColor (prim.r * texel.r / 255), clampColor (prim.g * texel.g / 255),
       clampColor (prim.b * texel.b / 255), clampColor (prim.a * texel.a / 255)⟩
  | .decal =>
      ⟨clampColor ((prim.r * (255 - texel.a) + texel.r * texel.a) / 255),
       clampColor ((prim.g * (255 - texel.a) + texel.g * texel.a) / 255),
       clampColor ((prim.b * (255 - texel.a) + texel.b * texel.a) / 255),
       clampColor prim.a⟩
  | .blend =>
      ⟨clampColor ((prim.r * (255 - texel.r) + texBlendColor.r * texel.r) / 255),
       clampColor ((prim.g * (255 - texel.g) + texBlendColor.g * texel.g) / 255),
       clampColor ((prim.b * (255 - texel.b) + texBlendColor.b * texel.b) / 255),
       clampColor (prim.a * texel.a / 255)⟩
  | .addMode =>
      ⟨clampColor (prim.r + texel.r), clampColor (prim.g + texel.g),
       clampColor (prim.b + texel.b), clampColor (prim.a * texel.a / 255)⟩

theorem alphaBlend_std_alpha_zero (s d : Vec4i) (hd : InRange4 d)
    (ha : s.a = 0) :
    AlphaBlendingResult standardAlphaPixelID s d = ⟨d.r, d.g, d.b⟩ := by
  obtain ⟨hr0, hr1, hg0, hg1, hb0, hb1, _, _⟩ := hd
  simp only [AlphaBlendingResult, standardAlphaPixelID, AlphaBlendingFactor, ha]
  simp only [Vec3i.mk.injEq]
  norm_num
  refine ⟨?_, ?_, ?_⟩
  · exact clampColor_of_range _ hr0 hr1
  · exact clampColor_of_range _ hg0 hg1
  · exact clampColor_of_range _ hb0 hb1

theorem alphaBlend_std_alpha_full (s d : Vec4i) (hs : InRange4 s)
    (ha : s.a = 255) :
    AlphaBlendingResult standardAlphaPixelID s d = ⟨s.r, s.g, s.b⟩ := by
  obtain ⟨hr0, hr1, hg0, hg1, hb0, hb1, _, _⟩ := hs
  simp only [AlphaBlendingResult, standardAlphaPixelID, AlphaBlendingFactor, ha]
  simp only [Vec3i.mk.injEq]
  norm_num
  refine ⟨?_, ?_, ?_⟩
  · exact clampColor_of_range _ hr0 hr1
  · exact clampColor_of_range _ hg0 hg1
  · exact clampColor_of_range _ hb0 hb1

theorem alphaBlendingResult_inRange (pid : PixelFuncID) (s d : Vec4i) :
    InRange3 (AlphaBlendingResult pid s d) := by
  obtain ⟨e, sfac, dfac, fa, fb⟩ := pid
  cases e <;>
    exact ⟨(clampColor_range _).1, (clampColor_range _).2,
      (clampColor_range _).1, (clampColor_range _).2,
      (clampColor_range _).1, (clampColor_range _).2⟩

/-- C2: the blending unit computes source × srcFactor OP dest × dstFactor
with every channel clamped to the representable range; for the standard
alpha-blend identifier it maps source (255,0,0,128) over dest (0,255,0,255)
to exactly (128,127,0), and under the same truncating rounding rule the
boundary alpha values behave exactly: source alpha 0 returns the destination
colour and source alpha 255 returns the source colour. -/
theorem alphaBlendingResult_correct (pid : PixelFuncID) (s0 d0 s1 d1 : Vec4i)
    (hd0 : InRange4 d0) (ha0 : s0.a = 0)
    (hs1 : InRange4 s1) (ha1 : s1.a = 255) :
    AlphaBlendingResult standardAlphaPixelID ⟨255, 0, 0, 128⟩ ⟨0, 255, 0, 255⟩ =
      ⟨128, 127, 0⟩ ∧
    AlphaBlendingResult standardAlphaPixelID s0 d0 = ⟨d0.r, d0.g, d0.b⟩ ∧
    AlphaBlendingResult standardAlphaPixelID s1 d1 = ⟨s1.r, s1.g, s1.b⟩ ∧
    InRange3 (AlphaBlendingResult pid s0 d0) :=
  ⟨by decide, alphaBlend_std_alpha_zero s0 d0 hd0 ha0,
   alphaBlend_std_alpha_full s1 d1 hs1 ha1, alphaBlendingResult_inRange pid s0 d0⟩

/-- Witness for C2 at concrete in-range colours with boundary alphas 0 and
255. -/
theorem alphaBlendingResult_correct_witness :
    AlphaBlendingResult standardAlphaPixelID ⟨255, 0, 0, 128⟩ ⟨0, 255, 0, 255⟩ =
      ⟨128, 127, 0⟩ ∧
    AlphaBlendingResult standardAlphaPixelID ⟨10, 20, 30, 0⟩ ⟨40, 50, 60, 70⟩ =
      ⟨40, 50, 60⟩ ∧
    AlphaBlendingResult standardAlphaPixelID ⟨10, 20, 30, 255⟩ ⟨40, 50, 60, 70⟩ =
      ⟨10, 20, 30⟩ ∧
    InRange3 (AlphaBlendingResult standardAlphaPixelID ⟨10, 20, 30, 0⟩
      ⟨40, 50, 60, 70⟩) :=
  alphaBlendingResult_correct standardAlphaPixelID ⟨10, 20, 30, 0⟩
    ⟨40, 50, 60, 70⟩ ⟨10, 20, 30, 255⟩ ⟨40, 50, 60, 70⟩
    (by decide) (by decide) (by decide) (by decide)

/-- C3: in modulate combine mode a full-white primary colour is a left
identity of the texture combine evaluator — for every in-range texel colour
the output equals the texel exactly, in particular at (100,150,200,255). -/
theorem getTextureFunctionOutput_modulate_white (bc : Vec3i) (t : Vec4i)
    (ht : InRange4 t) :
    GetTextureFunctionOutput .modulate bc ⟨255, 255, 255, 255⟩ t = t ∧
    GetTextureFunctionOutput .modulate bc ⟨255, 255, 255, 255⟩
      ⟨100, 150, 200, 255⟩ = ⟨100, 150, 200, 255⟩ := by
  constructor
  · obtain ⟨r, g, b, a⟩ := t
    obtain ⟨hr0, hr1, hg0, hg1, hb0, hb1, ha0, ha1⟩ := ht
    simp only [GetTextureFunctionOutput, Vec4i.mk.injEq]
    refine ⟨?_, ?_, ?_, ?_⟩
    · rw [Int.mul_ediv_cancel_left _ (show (255 : Int) ≠ 0 by norm_num)]
      exact clampColor_of_range _ hr0 hr1
    · rw [Int.mul_ediv_cancel_left _ (show (255 : Int) ≠ 0 by norm_num)]
      exact clampColor_of_range _ hg0 hg1
    · rw [Int.mul_ediv_cancel_left _ (show (255 : Int) ≠ 0 by norm_num)]
      exact clampColor_of_range _ hb0 hb1
    · rw [Int.mul_ediv_cancel_left _ (show (255 : Int) ≠ 0 by norm_num)]
      exact clampColor_of_range _ ha0 ha1
  · rfl

/-- Witness for C3 at the texel (100,150,200,255). -/
theorem getTextureFunctionOutput_modulate_white_witness :
    GetTextureFunctionOutput .modulate ⟨0, 0, 0⟩ ⟨255, 255, 255, 255⟩
      ⟨100, 150, 200, 255⟩ = ⟨100, 150, 200, 255⟩ ∧
    GetTextureFunctionOutput .modulate ⟨0, 0, 0⟩ ⟨255, 255, 255, 255⟩
      ⟨100, 150, 200, 255⟩ = ⟨100, 150, 200, 255⟩ :=
  getTextureFunctionOutput_modulate_white ⟨0, 0, 0⟩ ⟨100, 150, 200, 255⟩
    (by decide)

/-- Modelled from the spec: membership test of the axis-aligned rectangle
spanned by the two opposite corner points of the clear path. -/
def inClearRect (a b p : Int × Int) : Bool :=
  decide (min a.1 b.1 ≤ p.1 ∧ p.1 < max a.1 b.1 ∧
    min a.2 b.2 ≤ p.2 ∧ p.2 < max a.2 b.2)

/-- Modelled from the spec: `ClearRectangle` bypasses edge tests and fills
the axis-aligned rectangle given by two opposite corner vertices with the
constant (non-interpolated) clear value carried by the second vertex. -/
def ClearRectangle (v0 v1 : VertexData) (buf : Buffer) : Buffer :=
  fun p => if inClearRect v0.screenPos v1.screenPos p then v1.color else buf p

/-- Overwrite one pixel of the destination buffer. -/
def writePixel (p : Int × Int) (c : Nat) (buf : Buffer) : Buffer :=
  fun q => if q = p then c else buf q

/-- Modelled from the spec: the pixel visited at step `i` of the thin-line
walk from `a` toward `b` in `steps` steps. -/
def linePoint (a b : Int × Int) (steps i : Nat) : Int × Int :=
  (a.1 + (b.1 - a.1) * (i : Int) / (steps : Int),
   a.2 + (b.2 - a.2) * (i : Int) / (steps : Int))

/-- Modelled from the spec: `DrawLine` rasterizes a thin line by stepping
`max(|dx|, |dy|)` times from the first endpoint toward the second (endpoint
excluded, matching the reference hardware's thin-primitive rule), writing
the specialized pixel function's value at every visited pixel. -/
def DrawLine (v0 v1 : VertexData) (pf : Int × Int → Nat) (buf : Buffer) :
    Buffer :=
  let a := v0.screenPos
  let b := v1.screenPos
  let steps := max (b.1 - a.1).natAbs (b.2 - a.2).natAbs
  (List.range steps).foldl
    (fun acc i => writePixel (linePoint a b steps i) (pf (linePoint a b steps i)) acc)
    buf

/-- C4: `ClearRectangle` is idempotent — clearing the same rectangle twice
with the same clear value leaves the buffer exactly as clearing it once, for
every pair of corner vertices and every starting buffer. -/
theorem clearRectangle_idempotent (v0 v1 : VertexData) (buf : Buffer) :
    ClearRectangle v0 v1 (ClearRectangle v0 v1 buf) =
      ClearRectangle v0 v1 buf := by
  funext p
  unfold ClearRectangle
  by_cases h : inClearRect v0.screenPos v1.screenPos p <;> simp [h]

/-- C5: degenerate primitives perform no pixel writes — a zero-area triangle
passed to `DrawTriangle` and a zero-length line passed to `DrawLine` leave
the destination buffer unchanged (and, the model being total, return
normally). -/
theorem degenerate_primitives_no_writes (v0 v1 v2 w0 w1 : VertexData)
    (pf pg : Int × Int → Nat) (buf buf2 : Buffer)
    (htri : edgeFn v0.screenPos v1.screenPos v2.screenPos = 0)
    (hline : w0.screenPos = w1.screenPos) :
    DrawTriangle v0 v1 v2 pf buf = buf ∧ DrawLine w0 w1 pg buf2 = buf2 := by
  constructor
  · unfold DrawTriangle treatedFrontFacing
    rw [htri]
    simp
  · unfold DrawLine
    rw [← hline]
    simp

/-- Witness for C5 at the collinear triangle ((0,0),(1,1),(2,2)) and the
zero-length line from (5,5) to (5,5). -/
theorem degenerate_primitives_no_writes_witness :
    DrawTriangle ⟨0, 0, 0⟩ ⟨1, 1, 0⟩ ⟨2, 2, 0⟩ (fun _ => 1) (fun _ => 0) =
      (fun _ => 0) ∧
    DrawLine ⟨5, 5, 0⟩ ⟨5, 5, 0⟩ (fun _ => 1) (fun _ => 0) = (fun _ => 0) :=
  degenerate_primitives_no_writes ⟨0, 0, 0⟩ ⟨1, 1, 0⟩ ⟨2, 2, 0⟩ ⟨5, 5, 0⟩
    ⟨5, 5, 0⟩ (fun _ => 1) (fun _ => 1) (fun _ => 0) (fun _ => 0)
    (by decide) (by decide)

/-- C6: `DrawTriangle` is winding-sensitive — a counter-clockwise triangle
(positive doubled area) is drawn through the fill rule, while the same
geometry with the vertex order reversed is not treated as front-facing, so a
triangle and its vertex-reversed counterpart are never both drawn. -/
theorem drawTriangle_winding_sensitive (v0 v1 v2 : VertexData)
    (pf : Int × Int → Nat) (buf : Buffer)
    (hccw : treatedFrontFacing v0 v1 v2 = true) :
    DrawTriangle v0 v1 v2 pf buf =
      (fun p => if triangleCovers v0.screenPos v1.screenPos v2.screenPos p
        then pf p else buf p) ∧
    treatedFrontFacing v2 v1 v0 = false ∧
    DrawTriangle v2 v1 v0 pf buf = buf := by
  have h2 : treatedFrontFacing v2 v1 v0 = false := by
    have h1 : 0 < edgeFn v0.screenPos v1.screenPos v2.screenPos :=
      of_decide_eq_true hccw
    unfold treatedFrontFacing
    rw [edgeFn_rev]
    exact decide_eq_false (by omega)
  refine ⟨?_, h2, ?_⟩
  · unfold DrawTriangle
    rw [hccw]
    simp
  · unfold DrawTriangle
    rw [h2]
    simp

/-- Witness for C6 at the counter-clockwise triangle ((0,0),(4,0),(0,4)). -/
theorem drawTriangle_winding_sensitive_witness :
    DrawTriangle ⟨0, 0, 0⟩ ⟨4, 0, 0⟩ ⟨0, 4, 0⟩ (fun _ => 1) (fun _ => 0) =
      (fun p => if triangleCovers (0, 0) (4, 0) (0, 4) p then 1 else 0) ∧
    treatedFrontFacing ⟨0, 4, 0⟩ ⟨4, 0, 0⟩ ⟨0, 0, 0⟩ = false ∧
    DrawTriangle ⟨0, 4, 0⟩ ⟨4, 0, 0⟩ ⟨0, 0, 0⟩ (fun _ => 1) (fun _ => 0) =
      (fun _ => 0) :=
  drawTriangle_winding_sensitive ⟨0, 0, 0⟩ ⟨4, 0, 0⟩ ⟨0, 4, 0⟩ (fun _ => 1)
    (fun _ => 0) (by decide)

/-- Modelled from the spec: `GPUDebugBuffer`, the generic format-tagged 2D
pixel buffer produced only by debug readback. -/
structure GPUDebugBuffer where
  width : Nat
  height : Nat
  data : List Nat
deriving DecidableEq

/-- Modelled from the spec: the rendering state visible through this
interface — the destination framebuffer, the optional stencil backing store
and the optional texture levels. -/
structure RenderState where
  framebuffer : Buffer
  stencil : Option GPUDebugBuffer
  textureLevels : Nat → Option GPUDebugBuffer

/-- Modelled from the spec: `GetCurrentStencilbuffer` — a pure, read-only
snapshot that returns a failure indicator (false) when the stencil buffer
does not currently exist. -/
def GetCurrentStencilbuffer (s : RenderState) : Bool × Option GPUDebugBuffer :=
  match s.stencil with
  | none => (false, none)
  | some b => (true, some b)

/-- Modelled from the spec: `GetCurrentTexture` — a pure, read-only snapshot
of one texture level that returns a failure indicator (false) when the
requested level does not currently exist. -/
def GetCurrentTexture (s : RenderState) (level : Nat) :
    Bool × Option GPUDebugBuffer :=
  match s.textureLevels level with
  | none => (false, none)
  | some b => (true, some b)

/-- Modelled from the spec: the draw and debug-readback operations of the
interface, as commands over the rendering state. -/
inductive GpuCommand where
  | drawTriangleCmd (v0 v1 v2 : VertexData) (pf : Int × Int → Nat)
  | drawLineCmd (v0 v1 : VertexData) (pf : Int × Int → Nat)
  | clearRectangleCmd (v0 v1 : VertexData)
  | readStencilCmd
  | readTextureCmd (level : Nat)

/-- Modelled from the spec: one step of the interface — draw commands update
the framebuffer through the scan converter; debug readback returns a
snapshot and must not alter the rendering state. -/
def applyCommand (c : GpuCommand) (s : RenderState) :
    RenderState × Option GPUDebugBuffer :=
  match c with
  | .drawTriangleCmd v0 v1 v2 pf =>
      (⟨DrawTriangle v0 v1 v2 pf s.framebuffer, s.stencil, s.textureLevels⟩, none)
  | .drawLineCmd v0 v1 pf =>
      (⟨DrawLine v0 v1 pf s.framebuffer, s.stencil, s.textureLevels⟩, none)
  | .clearRectangleCmd v0 v1 =>
      (⟨ClearRectangle v0 v1 s.framebuffer, s.stencil, s.textureLevels⟩, none)
  | .readStencilCmd => (s, (GetCurrentStencilbuffer s).2)
  | .readTextureCmd level => (s, (GetCurrentTexture s level).2)

/-- Run a command list over the rendering state. -/
def runCommands (cs : List GpuCommand) (s : RenderState) : RenderState :=
  cs.foldl (fun st c => (applyCommand c st).1) s

/-- C7: debug readback fails recoverably on a missing target —
`GetCurrentTexture` returns false when the requested texture level does not
exist and `GetCurrentStencilbuffer` returns false when the stencil buffer
does not exist; both are total functions, so no fatal error is raised. -/
theorem debugReadback_missing_target_fails (s : RenderState) (level : Nat)
    (htex : s.textureLevels level = none) (hsten : s.stencil = none) :
    (GetCurrentTexture s level).1 = false ∧
    (GetCurrentStencilbuffer s).1 = false := by
  unfold GetCurrentTexture GetCurrentStencilbuffer
  rw [htex, hsten]
  exact ⟨rfl, rfl⟩

/-- The rendering state with no stencil buffer and no texture levels. -/
def emptyRenderState : RenderState := ⟨fun _ => 0, none, fun _ => none⟩

/-- Witness for C7 on the state with no stencil buffer and no texture
levels. -/
theorem debugReadback_missing_target_fails_witness :
    (GetCurrentTexture emptyRenderState 0).1 = false ∧
    (GetCurrentStencilbuffer emptyRenderState).1 = false :=
  debugReadback_missing_target_fails emptyRenderState 0 rfl rfl

/-- C8: debug readback does not interfere with rendering — inserting a
stencil (or texture) readback between two commands leaves the rendering
state, and hence the second draw's pixel results, exactly as when the
readback is omitted. -/
theorem debugReadback_non_interference (c1 c2 : GpuCommand) (s : RenderState)
    (level : Nat) :
    runCommands [c1, .readStencilCmd, c2] s = runCommands [c1, c2] s ∧
    runCommands [c1, .readTextureCmd level, c2] s = runCommands [c1, c2] s :=
  ⟨rfl, rfl⟩

end Rasterizer

namespace AndroidStorage

/-- The open modes of `Android_OpenContentUriMode` in `AndroidStorage.h`. -/
inductive Android_OpenContentUriMode where
  | READ
  | READ_WRITE
  | READ_WRITE_TRUNCATE
deriving DecidableEq

/-- The mode string chosen by the switch in `Android_OpenContentUriFd`
("r", "rw", "rwt"). -/
def modeString : Android_OpenContentUriMode → String
  | .READ => "r"
  | .READ_WRITE => "rw"
  | .READ_WRITE_TRUNCATE => "rwt"

/-- One call across the JNI boundary to a method registered by
`Android_RegisterStorageCallbacks`; the embedding records these calls so
that "no platform callback is invoked" is provable. -/
inductive PlatformCall where
  | openContentUri (filename mode : String)
  | listContentUriDir (path : String)
  | contentUriCreateDirectory (rootTreeUri dirName : String)
  | contentUriCreateFile (parentTreeUri fileName : String)
  | contentUriRemoveFile (fileUri : String)
  | contentUriGetFileInfo (fileUri : String)
  | contentUriGetFreeStorageSpace (uri : String)
  | filePathGetFreeStorageSpace (filePath : String)
  | isExternalStoragePreservedLegacy
deriving DecidableEq

/-- The behaviour of the Java-side native activity: the return value of each
registered callback.  `contentUriGetFileInfo` may return a null string,
embedded as `none`. -/
structure NativeActivity where
  openContentUri : String → String → Int
  listContentUriDir : String → List String
  contentUriCreateDirectory : String → String → Bool
  contentUriCreateFile : String → String → Bool
  contentUriRemoveFile : String → Bool
  contentUriGetFileInfo : String → Option String
  contentUriGetFreeStorageSpace : String → Int
  filePathGetFreeStorageSpace : String → Int
  isExternalStoragePreservedLegacy : Bool

/-- The fields of `File::FileInfo` written by `ParseFileInfo`.  The C++
field `exists` is a Lean keyword and is embedded as `fileExists`. -/
structure FileInfo where
  name : String
  isDirectory : Bool
  fileExists : Bool
  size : Nat
  fullName : String
  isWritable : Bool
  lastModified : Nat
deriving DecidableEq

/-- Leading-digit parse of `sscanf(s, "%" PRIu64, &out)`: the parsed value,
or 0 when no digits lead the string (the C++ then leaves `out` unchanged;
the fields are value-initialized in the embedding). -/
def parseLeadingNat (s : String) : Nat :=
  (s.data.takeWhile Char.isDigit).foldl (fun n c => 10 * n + (c.toNat - 48)) 0

/-- Embedded from `ParseFileInfo` in `AndroidStorage.cpp`: split the line on
the delimiter, require exactly 5 parts, then fill the file-info fields.
`parts[0][0] == 'D'` reads the terminating null character when part 0 is
empty, which compares unequal to 'D'; the embedding uses `List.head?`. -/
def ParseFileInfo (line : String) : Option FileInfo :=
  match line.splitOn "|" with
  | [p0, p1, p2, p3, p4] =>
      some ⟨p2, decide (p0.data.head? = some 'D'), true, parseLeadingNat p1,
        p3, true, parseLeadingNat p4⟩
  | _ => none

/-- Embedded from `Android_OpenContentUriFd` in `AndroidStorage.cpp`: with
no registered native activity, return -1 at once; otherwise copy the
filename, strip one trailing '/', and forward the URI and mode string to the
`openContentUri` callback.  The C++ reads `fname.back()` unconditionally;
on the empty string that is an out-of-bounds access, embedded as `none`.
The second component records the platform callbacks invoked. -/
def Android_OpenContentUriFd (g_nativeActivity : Option NativeActivity)
    (filename : String) (mode : Android_OpenContentUriMode) :
    Option (Int × List PlatformCall) :=
  match g_nativeActivity with
  | none => some (-1, [])
  | some act =>
      if filename.data = [] then
        none
      else
        let fname : String :=
          if filename.data.getLast? = some '/' then ⟨filename.data.dropLast⟩
          else filename
        some (act.openContentUri fname (modeString mode),
          [.openContentUri fname (modeString mode)])

/-- Embedded from `Android_CreateDirectory`: false at once without a native
activity, otherwise the `contentUriCreateDirectory` callback's result. -/
def Android_CreateDirectory (g_nativeActivity : Option NativeActivity)
    (rootTreeUri dirName : String) : Bool × List PlatformCall :=
  match g_nativeActivity with
  | none => (false, [])
  | some act =>
      (act.contentUriCreateDirectory rootTreeUri dirName,
       [.contentUriCreateDirectory rootTreeUri dirName])

/-- Embedded from `Android_CreateFile`: false at once without a native
activity, otherwise the `contentUriCreateFile` callback's result. -/
def Android_CreateFile (g_nativeActivity : Option NativeActivity)
    (parentTreeUri fileName : String) : Bool × List PlatformCall :=
  match g_nativeActivity with
  | none => (false, [])
  | some act =>
      (act.contentUriCreateFile parentTreeUri fileName,
       [.contentUriCreateFile parentTreeUri fileName])

/-- Embedded from `Android_RemoveFile`: false at once without a native
activity, otherwise the `contentUriRemoveFile` callback's result. -/
def Android_RemoveFile (g_nativeActivity : Option NativeActivity)
    (fileUri : String) : Bool × List PlatformCall :=
  match g_nativeActivity with
  | none => (false, [])
  | some act =>
      (act.contentUriRemoveFile fileUri, [.contentUriRemoveFile fileUri])

/-- Embedded from `Android_GetFileInfo`: false at once without a native
activity; otherwise call `contentUriGetFileInfo`, fail on a null string,
parse the line, and return the parse result together with the parsed
info. -/
def Android_GetFileInfo (g_nativeActivity : Option NativeActivity)
    (fileUri : String) : (Bool × Option FileInfo) × List PlatformCall :=
  match g_nativeActivity with
  | none => ((false, none), [])
  | some act =>
      match act.contentUriGetFileInfo fileUri with
      | none => ((false, none), [.contentUriGetFileInfo fileUri])
      | some line =>
          match ParseFileInfo line with
          | none => ((false, none), [.contentUriGetFileInfo fileUri])
          | some info =>
              ((info.fileExists, some info), [.contentUriGetFileInfo fileUri])

/-- Embedded from `Android_ListContentUri`: the empty list at once without a
native activity; otherwise one `listContentUriDir` callback, keeping every
line `ParseFileInfo` accepts. -/
def Android_ListContentUri (g_nativeActivity : Option NativeActivity)
    (path : String) : List FileInfo × List PlatformCall :=
  match g_nativeActivity with
  | none => ([], [])
  | some act =>
      ((act.listContentUriDir path).filterMap ParseFileInfo,
       [.listContentUriDir path])

/-- Embedded from `Android_GetFreeSpaceByContentUri`: without a native
activity the C++ returns `false`, which converts to the `int64_t` 0;
otherwise the `contentUriGetFreeStorageSpace` callback's result. -/
def Android_GetFreeSpaceByContentUri (g_nativeActivity : Option NativeActivity)
    (uri : String) : Int × List PlatformCall :=
  match g_nativeActivity with
  | none => (0, [])
  | some act =>
      (act.contentUriGetFreeStorageSpace uri,
       [.contentUriGetFreeStorageSpace uri])

/-- Embedded from `Android_GetFreeSpaceByFilePath`: without a native
activity the C++ returns `false`, which converts to the `int64_t` 0;
otherwise the `filePathGetFreeStorageSpace` callback's result. -/
def Android_GetFreeSpaceByFilePath (g_nativeActivity : Option NativeActivity)
    (filePath : String) : Int × List PlatformCall :=
  match g_nativeActivity with
  | none => (0, [])
  | some act =>
      (act.filePathGetFreeStorageSpace filePath,
       [.filePathGetFreeStorageSpace filePath])

/-- Embedded from `Android_IsExternalStoragePreservedLegacy`: false at once
without a native activity, otherwise the callback's result. -/
def Android_IsExternalStoragePreservedLegacy
    (g_nativeActivity : Option NativeActivity) : Bool × List PlatformCall :=
  match g_nativeActivity with
  | none => (false, [])
  | some act =>
      (act.isExternalStoragePreservedLegacy, [.isExternalStoragePreservedLegacy])

/-- C9: with no registered native activity, every content-URI operation
fails immediately with its documented failure value and invokes no platform
callback: `Android_OpenContentUriFd` returns -1; `Android_CreateDirectory`,
`Android_CreateFile`, `Android_RemoveFile`, `Android_GetFileInfo` and
`Android_IsExternalStoragePreservedLegacy` return false;
`Android_ListContentUri` returns the empty list; and the two free-space
queries return 0 (the C++ `return false` converted to `int64_t`). -/
theorem null_activity_fails_without_callbacks
    (filename rootTreeUri dirName parentTreeUri fileName fileUri listPath
      uri filePath : String) (mode : Android_OpenContentUriMode) :
    Android_OpenContentUriFd none filename mode = some (-1, []) ∧
    Android_CreateDirectory none rootTreeUri dirName = (false, []) ∧
    Android_CreateFile none parentTreeUri fileName = (false, []) ∧
    Android_RemoveFile none fileUri = (false, []) ∧
    Android_GetFileInfo none fileUri = ((false, none), []) ∧
    Android_IsExternalStoragePreservedLegacy none = (false, []) ∧
    Android_ListContentUri none listPath = ([], []) ∧
    Android_GetFreeSpaceByContentUri none uri = (0, []) ∧
    Android_GetFreeSpaceByFilePath none filePath = (0, []) :=
  ⟨rfl, rfl, rfl, rfl, rfl, rfl, rfl, rfl, rfl⟩

/-- A concrete native activity whose callbacks all return fixed values, used
to evaluate the embedded code on concrete inputs. -/
def trivialActivity : NativeActivity :=
  ⟨fun _ _ => 7, fun _ => [], fun _ _ => true, fun _ _ => true, fun _ => true,
   fun _ => none, fun _ => 0, fun _ => 0, false⟩

/-- C10 counterexample: with a native activity registered,
`Android_OpenContentUriFd` on the empty string evaluates `fname.back()` on
an empty `std::string` — an out-of-bounds access, embedded as `none` — so
the function is not memory-safe over its whole public input domain. -/
theorem openContentUriFd_empty_input_oob :
    Android_OpenContentUriFd (some trivialActivity) "" .READ = none := rfl

/-- C10 amended: with a native activity registered,
`Android_OpenContentUriFd` is safe on every non-empty input string — it
accesses only valid positions, removes at most one trailing '/', and
returns the descriptor produced by the single `openContentUri` platform
callback on the adjusted URI. -/
theorem openContentUriFd_nonempty_safe (act : NativeActivity)
    (filename : String) (mode : Android_OpenContentUriMode)
    (h : filename.data ≠ []) :
    Android_OpenContentUriFd (some act) filename mode =
      some (act.openContentUri
          (if filename.data.getLast? = some '/' then ⟨filename.data.dropLast⟩
           else filename) (modeString mode),
        [.openContentUri
          (if filename.data.getLast? = some '/' then ⟨filename.data.dropLast⟩
           else filename) (modeString mode)]) := by
  simp only [Android_OpenContentUriFd]
  rw [if_neg h]

/-- Witness for the amended C10 on the input "a/" whose trailing slash is
stripped before the callback runs. -/
theorem openContentUriFd_nonempty_safe_witness :
    Android_OpenContentUriFd (some trivialActivity) "a/" .READ =
      some (7, [.openContentUri "a" "r"]) := by
  rw [openContentUriFd_nonempty_safe trivialActivity "a/" .READ (by decide)]
  decide

end AndroidStorage
